import Mathlib

/-!
Verification of the DIMO vehicle-reports-web backend and client helpers.

The definitions below shallowly embed the JavaScript source:
* `src/backend/src/server.js` — the Express handlers: configuration
  save/load/delete, report generation (the per-vehicle loop, distance
  derivation, CSV filename), report download and listing, and the
  vehicle-listing normalization.
* `src/src/storage-service.js` / `src/src/dimo-api-service.js` — the
  client-side JWT validity check.

JavaScript numbers appearing in the report rows are embedded as `Int`
(every value the handlers compute on them is integer arithmetic);
JavaScript string truthiness (`""` is falsy) is modelled explicitly by
`jsStrOr` / `jsStrTruthy`; absent object fields are `Option`; a thrown
exception caught by a handler is an explicit constructor of the
corresponding result type.
-/

/-- JavaScript `a || d` for an optional string `a`: the default is taken
both when the field is absent and when it is the empty string (falsy). -/
def jsStrOr (o : Option String) (d : String) : String :=
  match o with
  | none => d
  | some s => if s = "" then d else s

/-- JavaScript truthiness of an optional string: `undefined`, `null` and
`""` are falsy. -/
def jsStrTruthy (o : Option String) : Bool :=
  match o with
  | none => false
  | some s => !(s == "")

/-! ## Report rows (server.js, POST /api/reports/generate) -/

/-- A CSV cell that the handler fills with either a number or a string
(`odometerReading` is a number on the signal path but the string `"N/A"`
or `"ERROR"` on the fallback paths). -/
inductive CellVal where
  | num (n : Int)
  | str (s : String)
deriving DecidableEq, Repr

/-- One accumulated report row, as pushed onto `reportData`. -/
structure Row where
  tokenId : String
  vin : String
  timestamp : String
  odometerReading : CellVal
  travelledDistance : Int
deriving DecidableEq, Repr

/-- One element of `telemetryResult.data.signals`. -/
structure Signal where
  powertrainTransmissionTravelledDistance : Option Int
  timestamp : Option String
deriving DecidableEq, Repr

/-- Outcome of the token exchange plus telemetry query for one vehicle:
either some step threw (caught by the per-vehicle `catch`), or the query
succeeded with an optional VIN and `signals` that is an array
(`some`, possibly empty) or absent / not an array (`none`). -/
inductive VehicleFetch where
  | failure
  | success (vin : Option String) (signals : Option (List Signal))
deriving DecidableEq, Repr

/-- The error row pushed by the per-vehicle `catch` block. -/
def errorRow (tokenId : String) : Row :=
  { tokenId := tokenId, vin := "ERROR", timestamp := "ERROR"
    odometerReading := .str "ERROR", travelledDistance := 0 }

/-- The fallback row pushed when `signals` is absent or not an array. -/
def naRow (tokenId vin : String) : Row :=
  { tokenId := tokenId, vin := vin, timestamp := "N/A"
    odometerReading := .str "N/A", travelledDistance := 0 }

/-- The defaulted reading of a signal: `powertrainTransmissionTravelledDistance || 0`. -/
def Signal.reading (s : Signal) : Int :=
  s.powertrainTransmissionTravelledDistance.getD 0

/-- The row built by the `signals.forEach((signal, index) => ...)` body for
index `i` of the array `sigs`. -/
def signalRow (tokenId vin : String) (sigs : List Signal) (i : Nat) (s : Signal) : Row :=
  let odometerReading := s.reading
  let travelledDistance : Int :=
    if i = 0 then 0
    else odometerReading - ((sigs[i-1]?.bind
      (fun p => p.powertrainTransmissionTravelledDistance)).getD 0)
  { tokenId := tokenId, vin := vin, timestamp := jsStrOr s.timestamp "N/A"
    odometerReading := .num odometerReading, travelledDistance := travelledDistance }

/-- All rows pushed by the `forEach` over a signals array. -/
def signalRows (tokenId vin : String) (sigs : List Signal) : List Row :=
  sigs.enum.map (fun p => signalRow tokenId vin sigs p.1 p.2)

/-- The rows one vehicle contributes to `reportData`: the error row on
failure; otherwise one row per signal (zero rows when the array is
empty), or the single `"N/A"` fallback row when `signals` is absent. -/
def vehicleRows (tokenId : String) (f : VehicleFetch) : List Row :=
  match f with
  | .failure => [errorRow tokenId]
  | .success vin signals =>
    let v := jsStrOr vin "N/A"
    match signals with
    | some sigs => signalRows tokenId v sigs
    | none => [naRow tokenId v]

/-- The whole per-vehicle loop: `reportData` after iterating over all
requested token ids, each paired with its fetch outcome. -/
def generateRows (vehicles : List (String × VehicleFetch)) : List Row :=
  vehicles.flatMap (fun v => vehicleRows v.1 v.2)

/-- A row is the pure error sentinel: VIN, timestamp and odometer reading
all `"ERROR"` and travelled distance `0`. -/
def isErrorSentinel (r : Row) : Bool :=
  r.vin == "ERROR" && r.timestamp == "ERROR" &&
    r.odometerReading == .str "ERROR" && r.travelledDistance == 0

/-! ## Configuration store (server.js, FileStorage and /api/config handlers) -/

/-- The record built by the POST /api/config handler and serialized to
`app-config.json`. -/
structure ConfigRecord where
  clientId : String
  apiKey : String
  redirectUri : String
  createdAt : String
deriving DecidableEq, Repr

/-- State of the `app-config.json` blob: no file, a file whose contents
do not read back or parse as JSON, or a stored record (JSON round-trips
the flat string record faithfully). -/
inductive ConfigBlob where
  | absent
  | unreadable
  | stored (c : ConfigRecord)
deriving DecidableEq, Repr

/-- `FileStorage.loadConfig`: reads and parses the blob, returning `null`
on any error (missing file, unreadable, unparsable). -/
def loadConfig (b : ConfigBlob) : Option ConfigRecord :=
  match b with
  | .absent => none
  | .unreadable => none
  | .stored c => some c

/-- `FileStorage.saveConfig`: unconditionally overwrites the blob. -/
def saveConfig (c : ConfigRecord) (_b : ConfigBlob) : ConfigBlob :=
  .stored c

/-- POST /api/config: validates `clientId`/`apiKey` (JS falsiness, so the
empty string fails too), defaults the redirect URI, stamps `createdAt`
with the current time, and saves. Returns the new blob state and the
saved record, or `none` for the 400 response. -/
def saveConfigHandler (clientId apiKey : String) (redirectUri : Option String)
    (now : String) (b : ConfigBlob) : ConfigBlob × Option ConfigRecord :=
  if clientId = "" ∨ apiKey = "" then (b, none)
  else
    let c : ConfigRecord :=
      { clientId := clientId, apiKey := apiKey
        redirectUri := jsStrOr redirectUri "http://localhost:5173", createdAt := now }
    (saveConfig c b, some c)

/-- DELETE /api/config: 404 (`false`) when the file does not exist,
otherwise unlinks it. An unreadable file still exists, so it is deleted. -/
def deleteConfigHandler (b : ConfigBlob) : ConfigBlob × Bool :=
  match b with
  | .absent => (b, false)
  | _ => (.absent, true)

/-! ## CSV filename and header (server.js, report materialization) -/

/-- `new Date().toISOString().replace(/[:.]/g, '-')`: every colon and dot
of the timestamp becomes a hyphen (a character-wise replacement, modelled
over the string's character list). -/
def sanitizeTimestamp (ts : String) : String :=
  ⟨ts.data.map (fun c => if c == ':' || c == '.' then '-' else c)⟩

/-- The generated report's filename. -/
def reportFilename (ts : String) : String :=
  "vehicle-report-" ++ sanitizeTimestamp ts ++ ".csv"

/-- The fixed CSV header passed to `createObjectCsvWriter`: field id and
column title, in order. -/
def csvHeader : List (String × String) :=
  [("tokenId", "Token ID"), ("vin", "VIN"), ("timestamp", "Timestamp"),
   ("odometerReading", "Odometer Reading"), ("travelledDistance", "Travelled Distance")]

/-! ## POST /api/reports/generate handler (validation, config, loop) -/

/-- The request body's `vehicleTokenIds` field: absent (or another falsy
value), present but not an array, or an array of ids. -/
inductive IdsField where
  | missing
  | nonArray
  | arr (l : List String)
deriving DecidableEq, Repr

/-- The body of a generate request. -/
structure GenBody where
  vehicleTokenIds : IdsField
  startDate : Option String
  endDate : Option String
deriving DecidableEq, Repr

/-- The handler's guard `!vehicleTokenIds || !Array.isArray(vehicleTokenIds)
|| vehicleTokenIds.length === 0`: the ids list when the guard passes. -/
def idsValid (f : IdsField) : Option (List String) :=
  match f with
  | .arr l => if l = [] then none else some l
  | _ => none

/-- Externally visible side effects of the generate handler, in order:
the configuration load, the developer-token exchange, and one
exchange-plus-telemetry fetch per vehicle. -/
inductive Effect where
  | configLoad
  | devExchange
  | vehicleFetch (tokenId : String)
deriving DecidableEq, Repr

/-- Result of the generate handler. -/
inductive GenResponse where
  | badRequest (msg : String)
  | serverError (msg : String)
  | ok (filename : String) (recordCount : Nat)
deriving DecidableEq, Repr

/-- The POST /api/reports/generate handler: validation, configuration
check, developer-token exchange (`devOk = false` means the exchange threw
and the outer catch answers 500), then the per-vehicle loop and the CSV
response. Also returns the trace of effects it performed. -/
def generateHandler (body : GenBody) (blob : ConfigBlob) (devOk : Bool)
    (fetch : String → VehicleFetch) (ts : String) : GenResponse × List Effect :=
  match idsValid body.vehicleTokenIds with
  | none => (.badRequest "Vehicle token IDs are required", [])
  | some ids =>
    if !jsStrTruthy body.startDate || !jsStrTruthy body.endDate then
      (.badRequest "Start date and end date are required", [])
    else
      match loadConfig blob with
      | none =>
        (.badRequest "No configuration found. Please configure the app first.",
         [.configLoad])
      | some _ =>
        if !devOk then
          (.serverError "Failed to generate report", [.configLoad, .devExchange])
        else
          let rows := generateRows (ids.map (fun t => (t, fetch t)))
          (.ok (reportFilename ts) rows.length,
           [.configLoad, .devExchange] ++ ids.map Effect.vehicleFetch)

/-! ## Report download and listing (server.js) -/

/-- GET /api/reports/download/:filename serves the file from the tmp
directory whenever `fs.access` succeeds, 404 otherwise. `files` is the
set of names present in the tmp directory. -/
def downloadStatus (files : List String) (filename : String) : Nat :=
  if filename ∈ files then 200 else 404

/-- `FileStorage.listReports`: directory listing filtered to `*.csv`;
a failed `readdir` (`none`) yields the empty list. -/
def listReports (dir : Option (List String)) : List String :=
  match dir with
  | none => []
  | some files => files.filter (fun f => f.endsWith ".csv")

/-- GET /api/reports: status 200 with the filtered listing. -/
def reportsHandler (dir : Option (List String)) : Nat × List String :=
  (200, listReports dir)

/-! ## Vehicle listing normalization (server.js, GET /api/vehicles) -/

/-- A vehicle node as returned by the identity GraphQL query. `imei` is
`aftermarketDevice?.imei` (absent when the device is null or has no
IMEI); `mintedAt` is `syntheticDevice?.mintedAt`. -/
structure VehicleNode where
  tokenId : Nat
  make : String
  model : String
  year : Int
  imei : Option String
  mintedAt : Option String
deriving DecidableEq, Repr

/-- The normalized shape sent to the frontend. -/
structure MappedVehicle where
  tokenId : Nat
  vehicleType : String
  imei : String
  mintedAt : String
deriving DecidableEq, Repr

/-- The `mappedVehicles` normalization. `localeDateString` stands for the
runtime's `m => new Date(m).toLocaleDateString()` conversion, which by the
ECMAScript contract renders the date portion only (day granularity, no
time component). -/
def mapVehicle (localeDateString : String → String) (v : VehicleNode) : MappedVehicle :=
  { tokenId := v.tokenId
    vehicleType := v.make ++ " " ++ v.model ++ " " ++ toString v.year
    imei := jsStrOr v.imei "N/A"
    mintedAt :=
      if jsStrTruthy v.mintedAt then localeDateString (v.mintedAt.getD "")
      else "N/A" }

/-! ## Client-side JWT validity check (storage-service.js, dimo-api-service.js) -/

/-- The JSON payload of a JWT as far as the check inspects it: the `exp`
claim, absent or a number. -/
structure JwtPayload where
  exp : Option Int
deriving DecidableEq, Repr

/-- Accumulator-passing splitter over the character list: collects the
current segment (reversed) and starts a new one at each `'.'`. -/
def splitDotAux : List Char → List Char → List String
  | [], acc => [⟨acc.reverse⟩]
  | c :: cs, acc =>
    if c = '.' then ⟨acc.reverse⟩ :: splitDotAux cs []
    else splitDotAux cs (c :: acc)

/-- JavaScript `jwt.split('.')`: the dot-separated segments, with `""`
producing `[""]` and a string without dots producing a singleton. -/
def jsSplitDot (s : String) : List String :=
  splitDotAux s.data []

/-- `StorageService.isJWTValid`: split on `'.'`, base64-decode the second
part, JSON-parse it, and test `payload.exp && payload.exp > now`; any
throw is caught and yields `false`. `atobF` and `parseF` stand for the
runtime's `atob` and `JSON.parse`, returning `none` where those throw
(including `atob` applied to the string `"undefined"` when the token has
no second part). A numeric `exp` of `0` is falsy, so the conjunction
yields a falsy value, embedded as `false`. -/
def isJWTValid (atobF : String → Option String) (parseF : String → Option JwtPayload)
    (jwt : String) (now : Int) : Bool :=
  match (jsSplitDot jwt)[1]? with
  | none => false
  | some part =>
    match atobF part with
    | none => false
    | some decoded =>
      match parseF decoded with
      | none => false
      | some payload =>
        match payload.exp with
        | none => false
        | some e => if e = 0 then false else decide (e > now)

/-- `DimoApiService.isJwtValid`: identical check behind an initial
`if (!jwt) return false` guard. -/
def isJwtValidApi (atobF : String → Option String) (parseF : String → Option JwtPayload)
    (jwt : String) (now : Int) : Bool :=
  if jwt = "" then false else isJWTValid atobF parseF jwt now

/-- A concrete signal series with the spec's example readings
`[100, 150, 140, 200]`. -/
def exampleSignals : List Signal :=
  [⟨some 100, some "2024-01-01"⟩, ⟨some 150, some "2024-01-02"⟩,
   ⟨some 140, some "2024-01-03"⟩, ⟨some 200, some "2024-01-04"⟩]

/-- A concrete vehicle node for instantiating the normalization rules. -/
def exampleNode : VehicleNode :=
  { tokenId := 42, make := "Toyota", model := "Prius", year := 2021
    imei := none, mintedAt := some "2024-01-01T00:00:00Z" }

/-- A stand-in `atob` that always decodes. -/
def atobAlways : String → Option String := fun _ => some "payload"

/-- A stand-in `JSON.parse` producing a payload with `exp = 100`. -/
def parseExp100 : String → Option JwtPayload := fun _ => some { exp := some 100 }

/-! ## Helper lemmas -/

lemma reportFilename_ne_appConfig (ts : String) :
    reportFilename ts ≠ "app-config.json" := by
  intro h
  have hd := congrArg String.data h
  rw [show reportFilename ts
        = "vehicle-report-" ++ (sanitizeTimestamp ts ++ ".csv") from by
      simp [reportFilename, String.append_assoc]] at hd
  rw [String.data_append] at hd
  rw [show ("vehicle-report-" : String).data = 'v' :: "ehicle-report-".data from rfl,
      show ("app-config.json" : String).data = 'a' :: "pp-config.json".data from rfl] at hd
  simp at hd

lemma signalRows_length (t vin : String) (sigs : List Signal) :
    (signalRows t vin sigs).length = sigs.length := by
  simp [signalRows]

lemma signalRows_getElem (t vin : String) (sigs : List Signal) (i : Nat) :
    (signalRows t vin sigs)[i]? = (sigs[i]?).map (fun s => signalRow t vin sigs i s) := by
  simp only [signalRows, List.getElem?_map, List.getElem?_enum]
  cases sigs[i]? <;> rfl

lemma signalRow_not_sentinel (t vin : String) (sigs : List Signal) (i : Nat) (s : Signal) :
    isErrorSentinel (signalRow t vin sigs i s) = false := by
  simp [isErrorSentinel, signalRow]

lemma vehicleRows_countP (t : String) (f : VehicleFetch) :
    (vehicleRows t f).countP isErrorSentinel = if f = .failure then 1 else 0 := by
  cases f with
  | failure => rfl
  | success vin signals =>
    cases signals with
    | none => simp [vehicleRows, naRow, isErrorSentinel, List.countP_cons]
    | some sigs =>
      rw [if_neg (by simp)]
      refine List.countP_eq_zero.2 ?_
      intro r hr
      simp only [vehicleRows, signalRows, List.mem_map] at hr
      obtain ⟨p, -, rfl⟩ := hr
      simp [signalRow_not_sentinel]

lemma generateRows_append (vs1 vs2 : List (String × VehicleFetch)) :
    generateRows (vs1 ++ vs2) = generateRows vs1 ++ generateRows vs2 := by
  simp [generateRows]

lemma generateRows_countP (vs : List (String × VehicleFetch)) :
    (generateRows vs).countP isErrorSentinel
      = vs.countP (fun v => v.2 == VehicleFetch.failure) := by
  induction vs with
  | nil => rfl
  | cons v vs ih =>
    simp only [generateRows, List.flatMap_cons, List.countP_append, List.countP_cons]
    simp only [generateRows] at ih
    rw [ih, vehicleRows_countP]
    by_cases h : v.2 = VehicleFetch.failure <;> simp [h, Nat.add_comm]

lemma vehicleRows_success_ne_nil (t : String) (vin : Option String)
    (sigs : Option (List Signal)) (h : sigs ≠ some []) :
    vehicleRows t (.success vin sigs) ≠ [] := by
  cases sigs with
  | none => simp [vehicleRows]
  | some l =>
    have hl : l ≠ [] := fun hl => h (by rw [hl])
    intro hnil
    have := signalRows_length t (jsStrOr vin "N/A") l
    rw [show vehicleRows t (.success vin (some l))
          = signalRows t (jsStrOr vin "N/A") l from rfl] at hnil
    rw [hnil] at this
    exact hl (List.length_eq_zero.1 this.symm)

/-! ## Claim theorems -/

/-- Claim C1, counterexample: a vehicle whose telemetry query succeeds
but returns an empty `signals` array is non-failing yet contributes zero
rows, so "each non-failing vehicle contributes at least one row" is false
on the code. -/
theorem c1_counterexample :
    VehicleFetch.success none (some []) ≠ VehicleFetch.failure ∧
    generateRows [("1", VehicleFetch.success none (some []))] = [] := by
  constructor
  · decide
  · rfl

/-- Claim C1 (amended): over any batch, the accumulated rows contain
exactly one pure `"ERROR"` sentinel row per failing vehicle (`k` of them
for `k` failures); a failing vehicle contributes exactly that row; a
non-failing vehicle contributes at least one row unless its `signals`
array is present but empty, in which case it contributes none; and the
loop is total and local — a vehicle's rows are unaffected by the other
vehicles' outcomes. -/
theorem c1_amended :
    (∀ vs : List (String × VehicleFetch),
      (generateRows vs).countP isErrorSentinel
        = vs.countP (fun v => v.2 == VehicleFetch.failure))
    ∧ (∀ t, vehicleRows t .failure = [errorRow t])
    ∧ (∀ t (vin : Option String) (sigs : Option (List Signal)), sigs ≠ some [] →
        vehicleRows t (.success vin sigs) ≠ [])
    ∧ (∀ vs1 vs2, generateRows (vs1 ++ vs2) = generateRows vs1 ++ generateRows vs2) :=
  ⟨generateRows_countP, fun _ => rfl, vehicleRows_success_ne_nil, generateRows_append⟩

/-- Claim C1, witness: a concrete batch with one failing vehicle yields
exactly one sentinel row, and a vehicle with an absent signals array
contributes a nonempty row list. -/
theorem c1_amended_witness :
    (generateRows [("1", .failure), ("2", .success none none),
        ("3", .success (some "V") (some [⟨some 5, none⟩]))]).countP isErrorSentinel = 1
    ∧ vehicleRows "2" (.success none none) ≠ [] := by
  constructor
  · rw [c1_amended.1 [("1", .failure), ("2", .success none none),
        ("3", .success (some "V") (some [⟨some 5, none⟩]))]]
    decide
  · exact c1_amended.2.2.1 "2" none none (by decide)

/-- Claim C2 (confirmed): for a non-empty signals array the handler emits
one row per sample in order; row `i`'s odometer reading is the sample's
defaulted value, the first row's travelled distance is 0, and row `i > 0`'s
travelled distance is reading `i` minus reading `i-1`, unclamped. -/
theorem c2 (t vin : String) (sigs : List Signal) (_hne : sigs ≠ []) :
    (signalRows t vin sigs).length = sigs.length
    ∧ ∀ i r s, (signalRows t vin sigs)[i]? = some r → sigs[i]? = some s →
        r.odometerReading = .num s.reading
        ∧ (i = 0 → r.travelledDistance = 0)
        ∧ ∀ s', 0 < i → sigs[i-1]? = some s' →
            r.travelledDistance = s.reading - s'.reading := by
  refine ⟨signalRows_length t vin sigs, ?_⟩
  intro i r s hr hs
  rw [signalRows_getElem, hs, Option.map_some'] at hr
  obtain rfl : signalRow t vin sigs i s = r := Option.some.inj hr
  refine ⟨rfl, fun h0 => by simp [signalRow, h0], ?_⟩
  intro s' hi hs'
  have hi0 : i ≠ 0 := Nat.pos_iff_ne_zero.1 hi
  simp [signalRow, hi0, hs', Signal.reading]

/-- Claim C2, witness: the spec's example series `[100, 150, 140, 200]`
yields travelled distances `[0, 50, -10, 60]`, and the row at index 2 is
the difference of readings 2 and 1. -/
theorem c2_witness :
    (signalRows "7" "V" exampleSignals).length = exampleSignals.length
    ∧ (signalRows "7" "V" exampleSignals).map Row.travelledDistance = [0, 50, -10, 60]
    ∧ ({ tokenId := "7", vin := "V", timestamp := "2024-01-03",
         odometerReading := .num 140, travelledDistance := -10 } : Row).travelledDistance
        = Signal.reading ⟨some 140, some "2024-01-03"⟩
          - Signal.reading ⟨some 150, some "2024-01-02"⟩ := by
  refine ⟨(c2 "7" "V" exampleSignals (by decide)).1, by decide, ?_⟩
  exact ((c2 "7" "V" exampleSignals (by decide)).2 2
      { tokenId := "7", vin := "V", timestamp := "2024-01-03",
        odometerReading := .num 140, travelledDistance := -10 }
      ⟨some 140, some "2024-01-03"⟩ (by decide) (by decide)).2.2
      ⟨some 150, some "2024-01-02"⟩ (by decide) (by decide)

/-- Claim C3, counterexample: a successful query with a present but empty
`signals` array yields zero rows for the vehicle, not the claimed single
`"N/A"` row — the vehicle is omitted from the report. -/
theorem c3_counterexample :
    vehicleRows "1" (.success (some "V") (some [])) = []
    ∧ (vehicleRows "1" (.success (some "V") (some []))).length ≠ 1 := by
  exact ⟨rfl, by decide⟩

/-- Claim C3 (amended): a missing VIN yields `"N/A"` as the vehicle's VIN;
an absent (or non-array) `signals` field yields exactly one non-error row
with timestamp `"N/A"`, odometer reading `"N/A"` and travelled distance 0;
but a present-and-empty `signals` array yields zero rows, omitting the
vehicle. -/
theorem c3_amended (t : String) (vin : Option String) (sigs : Option (List Signal)) :
    (∀ r ∈ vehicleRows t (.success none sigs), r.vin = "N/A")
    ∧ vehicleRows t (.success vin none)
        = [{ tokenId := t, vin := jsStrOr vin "N/A", timestamp := "N/A",
             odometerReading := .str "N/A", travelledDistance := 0 }]
    ∧ (∀ r ∈ vehicleRows t (.success vin none), isErrorSentinel r = false)
    ∧ vehicleRows t (.success vin (some [])) = [] := by
  refine ⟨?_, rfl, ?_, rfl⟩
  · intro r hr
    cases sigs with
    | none =>
      simp only [vehicleRows, List.mem_singleton] at hr
      rw [hr]; rfl
    | some l =>
      simp only [vehicleRows, signalRows, List.mem_map] at hr
      obtain ⟨p, -, rfl⟩ := hr
      rfl
  · intro r hr
    simp only [vehicleRows, List.mem_singleton] at hr
    rw [hr]
    simp [naRow, isErrorSentinel]

/-- Claim C3, witness: concrete instances of the amended statement. -/
theorem c3_amended_witness :
    (naRow "9" "N/A").vin = "N/A"
    ∧ isErrorSentinel (naRow "9" "N/A") = false
    ∧ vehicleRows "9" (.success (some "V") (some [])) = [] := by
  refine ⟨(c3_amended "9" none none).1 (naRow "9" "N/A") (by decide), ?_, ?_⟩
  · exact (c3_amended "9" none none).2.2.1 (naRow "9" "N/A") (by decide)
  · exact (c3_amended "9" (some "V") none).2.2.2

/-- Claim C4 (confirmed): for a valid credential record (non-empty
`clientId` and `apiKey`), save followed by load returns the same
`clientId`, `apiKey` and (defaulted) `redirectUri` plus a `createdAt`;
after delete, load returns `null`; and load returns `null` rather than
raising when nothing was saved or the blob is unreadable. -/
theorem c4 (cid key now : String) (uri : Option String) (b : ConfigBlob)
    (hcid : cid ≠ "") (hkey : key ≠ "") :
    (∃ c : ConfigRecord,
      (saveConfigHandler cid key uri now b).2 = some c
      ∧ loadConfig (saveConfigHandler cid key uri now b).1 = some c
      ∧ c.clientId = cid ∧ c.apiKey = key
      ∧ c.redirectUri = jsStrOr uri "http://localhost:5173"
      ∧ (∀ u, uri = some u → u ≠ "" → c.redirectUri = u)
      ∧ c.createdAt = now)
    ∧ loadConfig (deleteConfigHandler (saveConfigHandler cid key uri now b).1).1 = none
    ∧ loadConfig .absent = none
    ∧ loadConfig .unreadable = none := by
  have hguard : ¬(cid = "" ∨ key = "") := by
    rintro (h | h) <;> [exact hcid h; exact hkey h]
  refine ⟨⟨{ clientId := cid, apiKey := key,
             redirectUri := jsStrOr uri "http://localhost:5173", createdAt := now },
          ?_, ?_, rfl, rfl, rfl, ?_, rfl⟩, ?_, rfl, rfl⟩
  · simp [saveConfigHandler, hguard]
  · simp [saveConfigHandler, hguard, saveConfig, loadConfig]
  · intro u hu hne
    simp [jsStrOr, hu, hne]
  · simp [saveConfigHandler, hguard, saveConfig, deleteConfigHandler, loadConfig]

/-- Claim C4, witness: the round trip at a concrete record. -/
theorem c4_witness :
    ("0xabc" : String) ≠ "" ∧ ("k1" : String) ≠ ""
    ∧ loadConfig (saveConfigHandler "0xabc" "k1" (some "https://app") "t0" .absent).1
        = some { clientId := "0xabc", apiKey := "k1",
                 redirectUri := "https://app", createdAt := "t0" }
    ∧ loadConfig (deleteConfigHandler
        (saveConfigHandler "0xabc" "k1" (some "https://app") "t0" .absent).1).1 = none := by
  have h := c4 "0xabc" "k1" "t0" (some "https://app") .absent (by decide) (by decide)
  refine ⟨by decide, by decide, ?_, h.2.1⟩
  obtain ⟨c, -, hload, h1, h2, h3, -, h5⟩ := h.1
  refine hload.trans ?_
  have hjs : jsStrOr (some "https://app") "http://localhost:5173" = "https://app" := by
    decide
  cases c with
  | mk a b d e =>
    simp only at h1 h2 h3 h5
    subst h1; subst h2; subst h5
    rw [hjs] at h3
    subst h3
    rfl

/-- Claim C5 (confirmed): a generate request with missing/non-array/empty
`vehicleTokenIds`, or a missing (or empty) start or end date, answers 400
with an empty effect trace — no configuration load, token exchange or
per-vehicle work happens; with valid inputs but no credential record it
answers 400 having performed only the configuration load — no token
exchange or per-vehicle work. -/
theorem c5 (body : GenBody) (blob : ConfigBlob) (devOk : Bool)
    (fetch : String → VehicleFetch) (ts : String) :
    (idsValid body.vehicleTokenIds = none →
      generateHandler body blob devOk fetch ts
        = (.badRequest "Vehicle token IDs are required", []))
    ∧ (∀ ids, idsValid body.vehicleTokenIds = some ids →
        (!jsStrTruthy body.startDate || !jsStrTruthy body.endDate) = true →
        generateHandler body blob devOk fetch ts
          = (.badRequest "Start date and end date are required", []))
    ∧ (∀ ids, idsValid body.vehicleTokenIds = some ids →
        jsStrTruthy body.startDate = true → jsStrTruthy body.endDate = true →
        loadConfig blob = none →
        generateHandler body blob devOk fetch ts
          = (.badRequest "No configuration found. Please configure the app first.",
             [.configLoad])) := by
  refine ⟨fun h => ?_, fun ids hids hdates => ?_, fun ids hids hs he hcfg => ?_⟩
  · simp [generateHandler, h]
  · simp [generateHandler, hids, hdates]
  · simp [generateHandler, hids, hs, he, hcfg]

/-- Claim C5, witness: a missing ids field and a missing credential
record each produce the corresponding 400 with the claimed effect
trace. -/
theorem c5_witness :
    generateHandler ⟨.missing, some "2024-01-01", some "2024-01-31"⟩
        (.stored { clientId := "c", apiKey := "k", redirectUri := "r", createdAt := "t" })
        true (fun _ => .failure) "ts"
      = (.badRequest "Vehicle token IDs are required", [])
    ∧ generateHandler ⟨.arr ["42"], some "2024-01-01", some "2024-01-31"⟩
        .absent true (fun _ => .failure) "ts"
      = (.badRequest "No configuration found. Please configure the app first.",
         [.configLoad]) := by
  constructor
  · exact (c5 ⟨.missing, some "2024-01-01", some "2024-01-31"⟩
      (.stored { clientId := "c", apiKey := "k", redirectUri := "r", createdAt := "t" })
      true (fun _ => .failure) "ts").1 rfl
  · exact (c5 ⟨.arr ["42"], some "2024-01-01", some "2024-01-31"⟩
      .absent true (fun _ => .failure) "ts").2.2 ["42"] (by decide) (by decide)
      (by decide) rfl

/-- Claim C6, counterexample: every filename produced by report
generation differs from `app-config.json`, yet the download handler
serves `app-config.json` with 200 whenever that blob is present in the
same directory — a filename never produced by generation is served, not
rejected with 404. -/
theorem c6_counterexample :
    (∀ ts, reportFilename ts ≠ "app-config.json")
    ∧ downloadStatus ["app-config.json"] "app-config.json" = 200 := by
  refine ⟨reportFilename_ne_appConfig, ?_⟩
  simp [downloadStatus]

/-- Claim C6 (amended): the download handler answers 404 exactly for
filenames not present in the storage directory; any present file is
served, including the configuration blob `app-config.json`, which is
never produced by report generation. -/
theorem c6_amended (files : List String) (f : String) :
    (f ∉ files → downloadStatus files f = 404)
    ∧ (f ∈ files → downloadStatus files f = 200) := by
  constructor
  · intro h; simp [downloadStatus, h]
  · intro h; simp [downloadStatus, h]

/-- Claim C6, witness: the amended statement at concrete directory
states. -/
theorem c6_amended_witness :
    downloadStatus ["vehicle-report-x.csv"] "missing.csv" = 404
    ∧ downloadStatus ["app-config.json", "vehicle-report-x.csv"] "app-config.json"
        = 200 := by
  constructor
  · exact (c6_amended ["vehicle-report-x.csv"] "missing.csv").1 (by decide)
  · exact (c6_amended ["app-config.json", "vehicle-report-x.csv"] "app-config.json").2
      (by decide)

/-- Claim C7 (confirmed): the normalized vehicle's display type is make,
model and year joined by single spaces; missing IMEI and missing mint
date render as the string `"N/A"`; a present (non-empty) mint date is
passed through the locale day-granularity date conversion. -/
theorem c7 (localeDateString : String → String) (v : VehicleNode) :
    (mapVehicle localeDateString v).vehicleType
        = v.make ++ " " ++ v.model ++ " " ++ toString v.year
    ∧ (v.imei = none → (mapVehicle localeDateString v).imei = "N/A")
    ∧ (v.mintedAt = none → (mapVehicle localeDateString v).mintedAt = "N/A")
    ∧ (∀ m, v.mintedAt = some m → m ≠ "" →
        (mapVehicle localeDateString v).mintedAt = localeDateString m) := by
  refine ⟨rfl, fun h => ?_, fun h => ?_, fun m hm hne => ?_⟩
  · simp [mapVehicle, jsStrOr, h]
  · simp [mapVehicle, jsStrTruthy, h]
  · simp [mapVehicle, jsStrTruthy, hm, hne]

/-- Claim C7, witness: the normalization at a concrete node with no IMEI
and a present mint date. -/
theorem c7_witness :
    (mapVehicle (fun _ => "1/1/2024") exampleNode).vehicleType = "Toyota Prius 2021"
    ∧ (mapVehicle (fun _ => "1/1/2024") exampleNode).imei = "N/A"
    ∧ (mapVehicle (fun _ => "1/1/2024") exampleNode).mintedAt = "1/1/2024" := by
  have h := c7 (fun _ => "1/1/2024") exampleNode
  exact ⟨h.1.trans (by decide), h.2.1 rfl,
    h.2.2.2 "2024-01-01T00:00:00Z" rfl (by decide)⟩

/-- Claim C8 (confirmed): the CSV header has the fixed field order and
column titles, and the filename is `vehicle-report-<T>.csv` where `<T>`
is the generation timestamp with every `:` and `.` replaced by `-`. -/
theorem c8 (ts : String) :
    reportFilename ts = "vehicle-report-" ++ sanitizeTimestamp ts ++ ".csv"
    ∧ (sanitizeTimestamp ts).data
        = ts.data.map (fun c => if c = ':' ∨ c = '.' then '-' else c)
    ∧ (∀ c ∈ (sanitizeTimestamp ts).data, c ≠ ':' ∧ c ≠ '.')
    ∧ sanitizeTimestamp "2026-10-11T08:15:30.123Z" = "2026-10-11T08-15-30-123Z"
    ∧ csvHeader.map Prod.snd
        = ["Token ID", "VIN", "Timestamp", "Odometer Reading", "Travelled Distance"]
    ∧ csvHeader.map Prod.fst
        = ["tokenId", "vin", "timestamp", "odometerReading", "travelledDistance"] := by
  refine ⟨rfl, ?_, ?_, by decide, by decide, by decide⟩
  · show ts.data.map _ = _
    refine List.map_congr_left ?_
    intro c _
    by_cases hc : c = ':'
    · simp [hc]
    · by_cases hd : c = '.'
      · simp [hd]
      · simp [hc, hd]
  · intro c hc
    rw [show (sanitizeTimestamp ts).data
          = ts.data.map (fun c => if c == ':' || c == '.' then '-' else c) from rfl,
        List.mem_map] at hc
    obtain ⟨a, -, rfl⟩ := hc
    by_cases hc : a = ':'
    · simp [hc]
    · by_cases hd : a = '.'
      · simp [hd]
      · simp [hc, hd]

/-- Claim C8, witness: the header titles and a concrete sanitized
timestamp. -/
theorem c8_witness :
    sanitizeTimestamp "2026-10-11T08:15:30.123Z" = "2026-10-11T08-15-30-123Z"
    ∧ ('-' ≠ ':' ∧ '-' ≠ '.')
    ∧ csvHeader.map Prod.snd
        = ["Token ID", "VIN", "Timestamp", "Odometer Reading", "Travelled Distance"] := by
  have h := c8 "2026-10-11T08:15:30.123Z"
  exact ⟨h.2.2.2.1, h.2.2.1 '-' (by decide), h.2.2.2.2.1⟩

/-- Claim C9 (confirmed): listing reports is total — a failed directory
read yields the empty list, every listed name ends in `.csv`, and the
handler always answers 200 with the listing. -/
theorem c9 (dir : Option (List String)) :
    ((listReports dir).all (fun f => f.endsWith ".csv")) = true
    ∧ listReports none = []
    ∧ reportsHandler dir = (200, listReports dir) := by
  refine ⟨?_, rfl, rfl⟩
  cases dir with
  | none => rfl
  | some files =>
    refine List.all_eq_true.2 ?_
    intro f hf
    exact (List.mem_filter.1 hf).2

/-- Claim C10 (confirmed): the client JWT check is total and fail-closed —
a token without a second dot-separated part, a part `atob` rejects, an
undecodable payload, or a payload without `exp` all yield `false`; it
yields `true` only when the decoded payload's `exp` is strictly greater
than the current time in seconds; and the two copies of the check
agree. -/
theorem c10 (atobF : String → Option String) (parseF : String → Option JwtPayload)
    (jwt : String) (now : Int) :
    ((jsSplitDot jwt)[1]? = none → isJWTValid atobF parseF jwt now = false)
    ∧ (∀ part, (jsSplitDot jwt)[1]? = some part → atobF part = none →
        isJWTValid atobF parseF jwt now = false)
    ∧ (∀ part dec, (jsSplitDot jwt)[1]? = some part → atobF part = some dec →
        parseF dec = none → isJWTValid atobF parseF jwt now = false)
    ∧ (∀ part dec p, (jsSplitDot jwt)[1]? = some part → atobF part = some dec →
        parseF dec = some p → p.exp = none →
        isJWTValid atobF parseF jwt now = false)
    ∧ (isJWTValid atobF parseF jwt now = true →
        ∃ part dec p e, (jsSplitDot jwt)[1]? = some part ∧ atobF part = some dec
          ∧ parseF dec = some p ∧ p.exp = some e ∧ e > now)
    ∧ isJwtValidApi atobF parseF jwt now = isJWTValid atobF parseF jwt now := by
  refine ⟨fun h => by simp [isJWTValid, h],
    fun part h1 h2 => by simp [isJWTValid, h1, h2],
    fun part dec h1 h2 h3 => by simp [isJWTValid, h1, h2, h3],
    fun part dec p h1 h2 h3 h4 => by simp [isJWTValid, h1, h2, h3, h4],
    ?_, ?_⟩
  · intro ht
    unfold isJWTValid at ht
    split at ht
    · exact absurd ht (by simp)
    rename_i part hsplit
    split at ht
    · exact absurd ht (by simp)
    rename_i dec hat
    split at ht
    · exact absurd ht (by simp)
    rename_i payload hp
    split at ht
    · exact absurd ht (by simp)
    rename_i e he
    by_cases he0 : e = 0
    · rw [if_pos he0] at ht; exact absurd ht (by simp)
    · rw [if_neg he0] at ht
      exact ⟨part, dec, payload, e, hsplit, hat, hp, he, of_decide_eq_true ht⟩
  · unfold isJwtValidApi
    by_cases hj : jwt = ""
    · rw [if_pos hj, hj]
      rfl
    · rw [if_neg hj]

/-- Claim C10, witness: the check at concrete inputs — a dotless token is
rejected, and a token accepted with `exp = 100` at time `0` has its `exp`
in the future. -/
theorem c10_witness :
    isJWTValid atobAlways parseExp100 "nodotshere" 0 = false
    ∧ (∃ part dec p e,
        (jsSplitDot "h.p.s")[1]? = some part
        ∧ atobAlways part = some dec ∧ parseExp100 dec = some p
        ∧ p.exp = some e ∧ e > 0) := by
  constructor
  · exact (c10 atobAlways parseExp100 "nodotshere" 0).1 (by decide)
  · exact (c10 atobAlways parseExp100 "h.p.s" 0).2.2.2.2.1 (by decide)
